import Mathlib

/-
Shallow embedding of src/screens/LocationScreen.tsx from the hiking-app
repository.  The screen is a single React component; its `useState` hooks
and the `locationSubscription` ref form a state record, and each handler
(joinGroup, leaveGroup, startLocationTracking, stopLocationTracking,
toggleMapType, initializeLocation, the watch callback) becomes a function
on that record.  Handlers that show dialogs return the list of alerts they
raised.  Platform calls (permission request, one-shot position fetch,
watchPositionAsync) are modelled by passing their results as arguments;
the multiset of watch subscriptions that are live on the platform side is
carried along so that duplicate-subscription questions are expressible.
Numbers are rationals (the coordinate arithmetic uses only exact decimal
literals), timestamps are naturals.
-/

namespace LocationScreen

/-- Result status of Location.requestForegroundPermissionsAsync. -/
inductive PermissionStatus
  | granted
  | denied
  | undetermined
deriving DecidableEq, Repr

/-- Coordinates part of an expo-location LocationObject. -/
structure Coords where
  latitude : ℚ
  longitude : ℚ
  accuracy : ℚ
deriving DecidableEq, Repr

/-- The LocationObject delivered by expo-location. -/
structure LocationObject where
  coords : Coords
  timestamp : ℕ
deriving DecidableEq, Repr

/-- The UserLocation interface (src/screens/LocationScreen.tsx lines 12-19). -/
structure UserLocation where
  id : String
  name : String
  latitude : ℚ
  longitude : ℚ
  timestamp : ℕ
  color : String
deriving DecidableEq, Repr, Inhabited

/-- The MapRegion interface (lines 21-26). -/
structure MapRegion where
  latitude : ℚ
  longitude : ℚ
  latitudeDelta : ℚ
  longitudeDelta : ℚ
deriving DecidableEq, Repr

/-- The three-valued map display mode (line 34). -/
inductive MapType
  | standard
  | satellite
  | hybrid
deriving DecidableEq, Repr, Inhabited

/-- An opaque handle returned by Location.watchPositionAsync. -/
abbrev Subscription : Type := ℕ

/-- An Alert.alert dialog: title and message. -/
structure AlertMsg where
  title : String
  message : String
deriving DecidableEq, Repr

/-- The full state of the LocationScreen component: the useState hooks
(lines 30-44), the locationSubscription ref (line 45), and, as
instrumentation of the platform side, the list of watch subscriptions
currently live in expo-location (each successful watchPositionAsync call
appends one; subscription.remove deletes it). -/
structure ScreenState where
  location : Option LocationObject
  mapRegion : Option MapRegion
  mapType : MapType
  groupCode : String
  userName : String
  isInGroup : Bool
  groupMembers : List UserLocation
  showJoinModal : Bool
  isTracking : Bool
  locationSubscription : Option Subscription
  liveSubscriptions : List Subscription
deriving DecidableEq, Repr

/-- The initial state of every useState hook and of the ref (lines 30-45);
no platform subscription is live before the screen starts one. -/
def initialState : ScreenState where
  location := none
  mapRegion := none
  mapType := .standard
  groupCode := ""
  userName := ""
  isInGroup := false
  groupMembers := []
  showJoinModal := false
  isTracking := false
  locationSubscription := none
  liveSubscriptions := []

/-- The fixed color palette (line 48). -/
def userColors : List String :=
  ["#FF6B6B", "#4ECDC4", "#45B7D1", "#96CEB4", "#FFEAA7", "#DDA0DD", "#98D8C8"]

/-- The alert shown when permission is not granted (line 66). -/
def permissionDeniedAlert : AlertMsg :=
  ⟨"Permission Denied", "Location permission is required to use this feature."⟩

/-- The alert shown when the position fetch throws (line 87). -/
def locationErrorAlert : AlertMsg :=
  ⟨"Error", "Failed to get your location. Please try again."⟩

/-- Model of the JavaScript String.prototype.trim that line 152 applies
to the group code and the user name: remove whitespace from both ends.
(Lean's own String.trim is equivalent on these inputs but does not reduce
in the kernel, so the trimming is spelled out on the character list.) -/
def jsTrim (s : String) : String :=
  ⟨((s.data.dropWhile Char.isWhitespace).reverse.dropWhile
      Char.isWhitespace).reverse⟩

/-- The validation alert of joinGroup (line 153). -/
def joinValidationAlert : AlertMsg :=
  ⟨"Error", "Please enter both group code and your name."⟩

/-- initializeLocation (lines 61-89).  The permission status and the
outcome of getCurrentPositionAsync (none = the call threw) are passed in.
If the status is not granted it alerts and returns; otherwise it stores
the fetched location and centers the map region on it with 0.01 deltas;
a throw lands in the catch block, which alerts. -/
def initializeLocation (status : PermissionStatus)
    (fetched : Option LocationObject) (s : ScreenState) :
    ScreenState × List AlertMsg :=
  if status ≠ .granted then
    (s, [permissionDeniedAlert])
  else
    match fetched with
    | none => (s, [locationErrorAlert])
    | some currentLocation =>
      ({ s with
          location := some currentLocation
          mapRegion := some
            { latitude := currentLocation.coords.latitude
              longitude := currentLocation.coords.longitude
              latitudeDelta := 0.01
              longitudeDelta := 0.01 } }, [])

/-- startLocationTracking (lines 91-120).  The outcome of
watchPositionAsync is passed in: some sub is a successful subscription,
none means the call threw, in which case the catch block only logs and
the state is unchanged.  On success the handle is stored in the ref, the
platform now runs one more live watcher, and isTracking is set true. -/
def startLocationTracking (watchResult : Option Subscription)
    (s : ScreenState) : ScreenState :=
  match watchResult with
  | none => s
  | some sub =>
    { s with
        locationSubscription := some sub
        liveSubscriptions := sub :: s.liveSubscriptions
        isTracking := true }

/-- stopLocationTracking (lines 122-128): if the ref holds a handle,
remove it (the platform watcher dies) and null the ref; then set
isTracking false. -/
def stopLocationTracking (s : ScreenState) : ScreenState :=
  let s1 :=
    match s.locationSubscription with
    | some sub =>
      { s with
          locationSubscription := none
          liveSubscriptions := s.liveSubscriptions.erase sub }
    | none => s
  { s1 with isTracking := false }

/-- The callback passed to watchPositionAsync (lines 100-114): store the
new location, recenter the map region; updateLocationInGroup only logs to
the console, so it changes no state. -/
def watchCallback (newLocation : LocationObject) (s : ScreenState) :
    ScreenState :=
  { s with
      location := some newLocation
      mapRegion := some
        { latitude := newLocation.coords.latitude
          longitude := newLocation.coords.longitude
          latitudeDelta := 0.01
          longitudeDelta := 0.01 } }

/-- simulateGroupMembers (lines 173-196): returns early without a
location; otherwise replaces the member list with the two demo entries
offset from the user position, colored with palette slots 1 and 2. -/
def simulateGroupMembers (now : ℕ) (s : ScreenState) : ScreenState :=
  match s.location with
  | none => s
  | some location =>
    { s with
        groupMembers :=
          [ { id := "demo1"
              name := "Alice"
              latitude := location.coords.latitude + 0.001
              longitude := location.coords.longitude + 0.001
              timestamp := now
              color := userColors[1]! },
            { id := "demo2"
              name := "Bob"
              latitude := location.coords.latitude - 0.001
              longitude := location.coords.longitude + 0.002
              timestamp := now
              color := userColors[2]! } ] }

/-- joinGroup (lines 151-170).  With a whitespace-only code or name it
alerts and returns; otherwise it sets isInGroup, hides the modal, starts
tracking if not already tracking (watchResult models the
watchPositionAsync outcome), simulates the demo members, and shows the
success alert. -/
def joinGroup (now : ℕ) (watchResult : Option Subscription)
    (s : ScreenState) : ScreenState × List AlertMsg :=
  if jsTrim s.groupCode = "" ∨ jsTrim s.userName = "" then
    (s, [joinValidationAlert])
  else
    let s1 := { s with isInGroup := true, showJoinModal := false }
    let s2 := if s1.isTracking then s1 else startLocationTracking watchResult s1
    let s3 := simulateGroupMembers now s2
    (s3, [⟨"Success",
          "Joined group \"" ++ s.groupCode ++ "\" as " ++ s.userName ++ "!"⟩])

/-- leaveGroup (lines 198-205): clear the membership state, stop
tracking, and alert. -/
def leaveGroup (s : ScreenState) : ScreenState × List AlertMsg :=
  let s1 := { s with
      isInGroup := false
      groupCode := ""
      userName := ""
      groupMembers := [] }
  (stopLocationTracking s1,
   [⟨"Left Group", "You have left the hiking group."⟩])

/-- The types array of toggleMapType (line 208). -/
def mapTypes : List MapType := [.standard, .satellite, .hybrid]

/-- toggleMapType (lines 207-212): advance to the next entry of the
types array, cyclically. -/
def toggleMapType (s : ScreenState) : ScreenState :=
  let currentIndex := mapTypes.indexOf s.mapType
  let nextIndex := (currentIndex + 1) % mapTypes.length
  { s with mapType := mapTypes[nextIndex]! }

/-- What the group-status slot of the control panel shows when the user
is in a group (lines 274-285): the group code, the user name, and the
members-online count. -/
structure GroupPanelView where
  groupCode : String
  userName : String
  membersOnline : ℕ
deriving DecidableEq, Repr

/-- The non-loading screen, as rendered (lines 223-352): the map mode,
either the group panel or the join button (lines 274-293), the number of
markers (the user plus one per group member), and the tracking button
label flag. -/
structure MainView where
  mapType : MapType
  groupPanel : Option GroupPanelView
  showJoinButton : Bool
  markerCount : ℕ
  trackingActive : Bool
deriving DecidableEq, Repr

/-- The rendered screen: the loading container (lines 214-221) or the
map screen. -/
inductive ScreenView
  | loading
  | main (view : MainView)
deriving DecidableEq, Repr

/-- The component body after the hooks (lines 214-352): with no location
or no map region it renders the loading container; otherwise the map
screen, whose group slot shows the panel when isInGroup and the join
button otherwise. -/
def render (s : ScreenState) : ScreenView :=
  match s.location, s.mapRegion with
  | some _, some _ =>
    .main
      { mapType := s.mapType
        groupPanel :=
          if s.isInGroup then
            some { groupCode := s.groupCode
                   userName := s.userName
                   membersOnline := s.groupMembers.length + 1 }
          else none
        showJoinButton := !s.isInGroup
        markerCount := s.groupMembers.length + 1
        trackingActive := s.isTracking }
  | _, _ => .loading

/-- True when the screen renders the loading container (line 214). -/
def isLoading (s : ScreenState) : Bool :=
  s.location.isNone || s.mapRegion.isNone

/-- True when the rendered screen displays the group status panel. -/
def rendersGroupPanel (s : ScreenState) : Bool :=
  match render s with
  | .main v => v.groupPanel.isSome
  | .loading => false

/-- True when the rendered screen displays the join button. -/
def rendersJoinButton (s : ScreenState) : Bool :=
  match render s with
  | .main v => v.showJoinButton
  | .loading => false

/-- The events the screen can process: the mount-time initialization,
the modal open/cancel buttons, typing into the two inputs, the join
confirm button, the leave button, the tracking toggle button (stop when
tracking, start otherwise, line 305), the map-type button, and a
delivery of the watch callback (which the platform only makes while a
subscription is live). -/
inductive Event
  | mount (status : PermissionStatus) (fetched : Option LocationObject)
  | openJoinModal
  | cancelJoinModal
  | typeGroupCode (c : String)
  | typeUserName (n : String)
  | confirmJoin (now : ℕ) (watchResult : Option Subscription)
  | pressLeave
  | pressTrackingToggle (watchResult : Option Subscription)
  | pressToggleMapType
  | deliverWatchUpdate (newLocation : LocationObject)

/-- One step of the screen: the state after processing an event. -/
def step (s : ScreenState) : Event → ScreenState
  | .mount status fetched => (initializeLocation status fetched s).1
  | .openJoinModal => { s with showJoinModal := true }
  | .cancelJoinModal => { s with showJoinModal := false }
  | .typeGroupCode c => { s with groupCode := c }
  | .typeUserName n => { s with userName := n }
  | .confirmJoin now watchResult => (joinGroup now watchResult s).1
  | .pressLeave => (leaveGroup s).1
  | .pressTrackingToggle watchResult =>
    if s.isTracking then stopLocationTracking s
    else startLocationTracking watchResult s
  | .pressToggleMapType => toggleMapType s
  | .deliverWatchUpdate newLocation =>
    if s.locationSubscription.isSome then watchCallback newLocation s else s

/-- The states the screen can reach from its initial state through its
events. -/
inductive Reachable : ScreenState → Prop
  | init : Reachable initialState
  | step {s : ScreenState} (e : Event) : Reachable s → Reachable (step s e)

/-- A concrete location reading used in concrete instantiations. -/
def demoLocation : LocationObject := ⟨⟨0, 0, 5⟩, 0⟩

/-- C2: for every state, leaveGroup clears the group code, the user name
and the peer list, sets the in-group flag false, and stops the recurring
subscription: the subscription handle is null and the tracking flag is
false afterwards. -/
theorem leaveGroup_clears_state (s : ScreenState) :
    (leaveGroup s).1.groupCode = "" ∧ (leaveGroup s).1.userName = "" ∧
    (leaveGroup s).1.groupMembers = [] ∧ (leaveGroup s).1.isInGroup = false ∧
    (leaveGroup s).1.locationSubscription = none ∧
    (leaveGroup s).1.isTracking = false := by
  obtain ⟨loc, reg, mt, gc, un, ig, gm, sm, it, lsub, live⟩ := s
  cases lsub <;> simp [leaveGroup, stopLocationTracking]

/-- C3: submitting the join form with an empty group code or an empty
user name shows the validation alert and leaves the whole screen state
unchanged. -/
theorem joinGroup_empty_input_noop (s : ScreenState) (now : ℕ)
    (w : Option Subscription) (h : s.groupCode = "" ∨ s.userName = "") :
    joinGroup now w s = (s, [joinValidationAlert]) := by
  have ht : jsTrim s.groupCode = "" ∨ jsTrim s.userName = "" := by
    rcases h with h | h
    · exact Or.inl (by rw [h]; rfl)
    · exact Or.inr (by rw [h]; rfl)
  unfold joinGroup
  rw [if_pos ht]

/-- Witness for C3 at the initial state, whose code and name are empty. -/
theorem joinGroup_empty_input_noop_witness :
    joinGroup 0 none initialState = (initialState, [joinValidationAlert]) :=
  joinGroup_empty_input_noop initialState 0 none (Or.inl rfl)

/-- C4: when the permission request resolves with a status other than
granted, initializeLocation shows exactly the one permission alert and
leaves the state untouched whatever the position fetch would have
returned; on the mount-time state, location and mapRegion therefore stay
null and the screen still renders the loading container. -/
theorem initializeLocation_denied_stays_loading (status : PermissionStatus)
    (fetched : Option LocationObject) (s : ScreenState)
    (h : status ≠ .granted) :
    initializeLocation status fetched s = (s, [permissionDeniedAlert]) ∧
    (initializeLocation status fetched initialState).1.location = none ∧
    (initializeLocation status fetched initialState).1.mapRegion = none ∧
    isLoading (initializeLocation status fetched initialState).1 = true := by
  have h1 : ∀ t : ScreenState,
      initializeLocation status fetched t = (t, [permissionDeniedAlert]) := by
    intro t
    unfold initializeLocation
    rw [if_pos h]
  refine ⟨h1 s, ?_, ?_, ?_⟩ <;> rw [h1 initialState] <;> rfl

/-- Witness for C4 with a denied permission status, even when a position
would have been available. -/
theorem initializeLocation_denied_stays_loading_witness :
    initializeLocation .denied (some demoLocation) initialState
      = (initialState, [permissionDeniedAlert]) ∧
    (initializeLocation .denied (some demoLocation) initialState).1.location
      = none ∧
    (initializeLocation .denied (some demoLocation) initialState).1.mapRegion
      = none ∧
    isLoading (initializeLocation .denied (some demoLocation) initialState).1
      = true :=
  initializeLocation_denied_stays_loading .denied (some demoLocation)
    initialState (by decide)

/-- The map mode after toggleMapType is the next entry of the types
array, by unfolding the definition. -/
theorem toggleMapType_mapType (s : ScreenState) :
    (toggleMapType s).mapType
      = mapTypes[(mapTypes.indexOf s.mapType + 1) % mapTypes.length]! := rfl

/-- C5: toggleMapType advances the map mode cyclically through standard,
satellite, hybrid, so three applications return it to its starting
value, whatever it was. -/
theorem toggleMapType_three_cycle (s : ScreenState) :
    (toggleMapType (toggleMapType (toggleMapType s))).mapType = s.mapType := by
  rw [toggleMapType_mapType, toggleMapType_mapType, toggleMapType_mapType]
  cases hm : s.mapType <;> decide

/-- C10: stopLocationTracking always yields a null subscription handle
and a false tracking flag, keeps every other piece of state, and is
idempotent. -/
theorem stopLocationTracking_idempotent (s : ScreenState) :
    (stopLocationTracking s).locationSubscription = none ∧
    (stopLocationTracking s).isTracking = false ∧
    (stopLocationTracking s).location = s.location ∧
    (stopLocationTracking s).mapRegion = s.mapRegion ∧
    (stopLocationTracking s).mapType = s.mapType ∧
    (stopLocationTracking s).groupCode = s.groupCode ∧
    (stopLocationTracking s).userName = s.userName ∧
    (stopLocationTracking s).isInGroup = s.isInGroup ∧
    (stopLocationTracking s).groupMembers = s.groupMembers ∧
    (stopLocationTracking s).showJoinModal = s.showJoinModal ∧
    stopLocationTracking (stopLocationTracking s) = stopLocationTracking s := by
  obtain ⟨loc, reg, mt, gc, un, ig, gm, sm, it, lsub, live⟩ := s
  cases lsub <;> simp [stopLocationTracking]

/-- A state whose code is whitespace-only (hence non-empty) with a
location reading present. -/
def whitespaceCodeState : ScreenState :=
  { initialState with
      groupCode := " ", userName := "Bob", location := some demoLocation }

/-- A state with validation-passing code and name but no location
reading. -/
def noLocationJoinState : ScreenState :=
  { initialState with groupCode := "HIKE123", userName := "Ann" }

/-- A state whose code is whitespace-only (hence non-empty) and with no
location reading. -/
def whitespaceNoLocState : ScreenState :=
  { initialState with groupCode := " ", userName := "Ann" }

/-- A state differing from the initial one only by a location reading. -/
def locatedState : ScreenState :=
  { initialState with location := some demoLocation }

/-- C1 counterexample: non-empty code and name do not suffice.  With the
whitespace-only code " " (a non-empty string) joinGroup is rejected by
the trim validation and the in-group flag stays false; and with
non-empty code and name but no location reading joinGroup leaves the
peer list without the two promised entries. -/
theorem joinGroup_nonempty_not_sufficient :
    (whitespaceCodeState.groupCode ≠ "" ∧ whitespaceCodeState.userName ≠ "" ∧
     (joinGroup 0 (some 0) whitespaceCodeState).1.isInGroup = false) ∧
    (noLocationJoinState.groupCode ≠ "" ∧ noLocationJoinState.userName ≠ "" ∧
     (joinGroup 0 (some 0) noLocationJoinState).1.groupMembers.length ≠ 2) := by
  decide

/-- C1 amended: for every state whose group code and user name trim to
non-empty strings and in which a location reading has been acquired,
joinGroup (with the platform watch call succeeding) sets the in-group
flag true, populates the peer list with exactly two fabricated entries,
and starts the recurring subscription exactly when it is not already
active. -/
theorem joinGroup_trimmed_with_location (s : ScreenState) (now : ℕ)
    (w : Subscription) (hc : jsTrim s.groupCode ≠ "")
    (hn : jsTrim s.userName ≠ "") (loc : LocationObject)
    (hloc : s.location = some loc) :
    (joinGroup now (some w) s).1.isInGroup = true ∧
    (joinGroup now (some w) s).1.groupMembers.length = 2 ∧
    (s.isTracking = false →
      (joinGroup now (some w) s).1.isTracking = true ∧
      (joinGroup now (some w) s).1.locationSubscription = some w) ∧
    (s.isTracking = true →
      (joinGroup now (some w) s).1.isTracking = true ∧
      (joinGroup now (some w) s).1.locationSubscription
        = s.locationSubscription) := by
  unfold joinGroup
  rw [if_neg (not_or.mpr ⟨hc, hn⟩)]
  cases ht : s.isTracking <;>
    simp [startLocationTracking, simulateGroupMembers, hloc, ht]

/-- Witness for the amended C1 on a concrete non-tracking state with a
location reading. -/
theorem joinGroup_trimmed_with_location_witness :
    (joinGroup 7 (some 3)
      { initialState with
          groupCode := "HIKE123", userName := "Osman",
          location := some demoLocation }).1.isInGroup = true ∧
    (joinGroup 7 (some 3)
      { initialState with
          groupCode := "HIKE123", userName := "Osman",
          location := some demoLocation }).1.groupMembers.length = 2 ∧
    (({ initialState with
          groupCode := "HIKE123", userName := "Osman",
          location := some demoLocation } : ScreenState).isTracking = false →
      (joinGroup 7 (some 3)
        { initialState with
            groupCode := "HIKE123", userName := "Osman",
            location := some demoLocation }).1.isTracking = true ∧
      (joinGroup 7 (some 3)
        { initialState with
            groupCode := "HIKE123", userName := "Osman",
            location := some demoLocation }).1.locationSubscription
          = some 3) ∧
    (({ initialState with
          groupCode := "HIKE123", userName := "Osman",
          location := some demoLocation } : ScreenState).isTracking = true →
      (joinGroup 7 (some 3)
        { initialState with
            groupCode := "HIKE123", userName := "Osman",
            location := some demoLocation }).1.isTracking = true ∧
      (joinGroup 7 (some 3)
        { initialState with
            groupCode := "HIKE123", userName := "Osman",
            location := some demoLocation }).1.locationSubscription
          = ({ initialState with
                groupCode := "HIKE123", userName := "Osman",
                location := some demoLocation } : ScreenState).locationSubscription) :=
  joinGroup_trimmed_with_location
    { initialState with
        groupCode := "HIKE123", userName := "Osman",
        location := some demoLocation }
    7 3 (by decide) (by decide) demoLocation rfl

/-- C9 counterexample: with the whitespace-only (hence non-empty) code
" ", a non-empty name, and no location reading, joinGroup is rejected by
the trim validation, so the in-group flag is not set true as the claim
states. -/
theorem joinGroup_whitespace_code_rejected :
    whitespaceNoLocState.groupCode ≠ "" ∧
    whitespaceNoLocState.userName ≠ "" ∧
    whitespaceNoLocState.location = none ∧
    (joinGroup 0 (some 0) whitespaceNoLocState).1.isInGroup = false := by
  decide

/-- C9 amended: if joinGroup is called with code and name trimming to
non-empty strings while no location reading has been acquired, the
in-group flag is still set true and tracking is active afterwards (with
the subscription freshly started when the state was not tracking), but
the peer list is left unchanged because simulateGroupMembers returns
early without a location. -/
theorem joinGroup_without_location_keeps_members (s : ScreenState) (now : ℕ)
    (w : Subscription) (hc : jsTrim s.groupCode ≠ "")
    (hn : jsTrim s.userName ≠ "") (hloc : s.location = none) :
    (joinGroup now (some w) s).1.isInGroup = true ∧
    (joinGroup now (some w) s).1.groupMembers = s.groupMembers ∧
    (joinGroup now (some w) s).1.isTracking = true ∧
    (s.isTracking = false →
      (joinGroup now (some w) s).1.locationSubscription = some w) := by
  unfold joinGroup
  rw [if_neg (not_or.mpr ⟨hc, hn⟩)]
  cases ht : s.isTracking <;>
    simp [startLocationTracking, simulateGroupMembers, hloc, ht]

/-- Witness for the amended C9 on a concrete non-tracking state without
a location reading. -/
theorem joinGroup_without_location_keeps_members_witness :
    (joinGroup 0 (some 5) noLocationJoinState).1.isInGroup = true ∧
    (joinGroup 0 (some 5) noLocationJoinState).1.groupMembers
      = noLocationJoinState.groupMembers ∧
    (joinGroup 0 (some 5) noLocationJoinState).1.isTracking = true ∧
    (noLocationJoinState.isTracking = false →
      (joinGroup 0 (some 5) noLocationJoinState).1.locationSubscription
        = some 5) :=
  joinGroup_without_location_keeps_members noLocationJoinState 0 5
    (by decide) (by decide) rfl

/-- C7 counterexample: the first peer of the simulated member list does
not carry the palette color at its own list position: its color is
userColors[1], not userColors[0] (palette slot 0 is used for the current
user's own marker). -/
theorem peer_color_not_at_own_index :
    (simulateGroupMembers 0 locatedState).groupMembers.length = 2 ∧
    ((simulateGroupMembers 0 locatedState).groupMembers[0]!).color
      ≠ userColors[0]! := by
  decide

/-- C7 amended: every peer entry of the simulated member list carries
the palette color at its list position shifted by one: the peer at
position i has color userColors[i + 1], slot 0 of the palette being the
current user's own marker color. -/
theorem peer_color_shifted_palette (s : ScreenState) (now : ℕ)
    (loc : LocationObject) (hloc : s.location = some loc) (i : ℕ)
    (hi : i < (simulateGroupMembers now s).groupMembers.length) :
    ((simulateGroupMembers now s).groupMembers[i]!).color
      = userColors[i + 1]! := by
  unfold simulateGroupMembers at hi ⊢
  rw [hloc] at hi ⊢
  simp at hi
  interval_cases i <;> rfl

/-- Witness for the amended C7 at peer position 0 of a concrete state
with a location reading. -/
theorem peer_color_shifted_palette_witness :
    ((simulateGroupMembers 3 locatedState).groupMembers[0]!).color
      = userColors[0 + 1]! :=
  peer_color_shifted_palette locatedState 3 demoLocation rfl 0 (by decide)

/-- C8 counterexample: in the rendered initial state the in-group flag
is false and yet the join button is not displayed, because the screen is
still the loading container; so the join button is not displayed exactly
when the flag is false. -/
theorem join_button_hidden_while_loading :
    initialState.isInGroup = false ∧
    rendersJoinButton initialState = false := by
  decide

/-- C8 amended: in every state, the group status panel is displayed
exactly when the screen is past loading and the in-group flag is true,
and the join button exactly when the screen is past loading and the flag
is false; in the loading state neither is displayed, so group-dependent
UI is still shown only when the flag is true, and being a function of
the state alone this holds after every operation. -/
theorem group_ui_iff_in_group_and_loaded (s : ScreenState) :
    (rendersGroupPanel s = true ↔ isLoading s = false ∧ s.isInGroup = true) ∧
    (rendersJoinButton s = true ↔ isLoading s = false ∧ s.isInGroup = false) := by
  obtain ⟨loc, reg, mt, gc, un, ig, gm, sm, it, lsub, live⟩ := s
  cases loc <;> cases reg <;> cases ig <;>
    simp [rendersGroupPanel, rendersJoinButton, render, isLoading]

/-- The single-subscription invariant: the tracking flag equals the
presence of a handle in the ref, and the watchers live on the platform
side are exactly the one the ref holds. -/
def subscriptionInv (s : ScreenState) : Prop :=
  s.isTracking = s.locationSubscription.isSome ∧
  s.liveSubscriptions = s.locationSubscription.toList

/-- Every screen event preserves the single-subscription invariant. -/
theorem subscriptionInv_step (s : ScreenState) (e : Event)
    (h : subscriptionInv s) : subscriptionInv (step s e) := by
  obtain ⟨h1, h2⟩ := h
  obtain ⟨loc, reg, mt, gc, un, ig, gm, sm, it, lsub, live⟩ := s
  simp only at h1 h2
  subst h1 h2
  cases e with
  | mount status fetched =>
    by_cases hst : status ≠ PermissionStatus.granted <;>
      cases fetched <;>
        simp [step, initializeLocation, subscriptionInv, hst]
  | openJoinModal => exact ⟨rfl, rfl⟩
  | cancelJoinModal => exact ⟨rfl, rfl⟩
  | typeGroupCode c => exact ⟨rfl, rfl⟩
  | typeUserName n => exact ⟨rfl, rfl⟩
  | confirmJoin now w =>
    by_cases hv : jsTrim gc = "" ∨ jsTrim un = ""
    · simp [step, joinGroup, subscriptionInv, hv]
    · cases lsub <;> cases w <;> cases loc <;>
        simp [step, joinGroup, subscriptionInv, hv, startLocationTracking,
          simulateGroupMembers]
  | pressLeave =>
    cases lsub <;>
      simp [step, leaveGroup, stopLocationTracking, subscriptionInv]
  | pressTrackingToggle w =>
    cases lsub <;> cases w <;>
      simp [step, startLocationTracking, stopLocationTracking,
        subscriptionInv]
  | pressToggleMapType => exact ⟨rfl, rfl⟩
  | deliverWatchUpdate newLocation =>
    cases lsub <;> simp [step, watchCallback, subscriptionInv]

/-- Every reachable state satisfies the single-subscription invariant. -/
theorem reachable_subscriptionInv (s : ScreenState) (h : Reachable s) :
    subscriptionInv s := by
  induction h with
  | init => exact ⟨rfl, rfl⟩
  | step e hr ih => exact subscriptionInv_step _ e ih

/-- C6: in every state reachable through the screen's events at most one
platform watch subscription is live, and the tracking flag is true
exactly when the subscription handle in the ref is non-null. -/
theorem tracking_flag_matches_subscription (s : ScreenState)
    (h : Reachable s) :
    s.liveSubscriptions.length ≤ 1 ∧
    (s.isTracking = true ↔ s.locationSubscription.isSome = true) := by
  obtain ⟨h1, h2⟩ := reachable_subscriptionInv s h
  constructor
  · rw [h2]
    cases s.locationSubscription <;> simp
  · rw [h1]

/-- Witness for C6 at the reachable initial state. -/
theorem tracking_flag_matches_subscription_witness :
    initialState.liveSubscriptions.length ≤ 1 ∧
    (initialState.isTracking = true
      ↔ initialState.locationSubscription.isSome = true) :=
  tracking_flag_matches_subscription initialState Reachable.init

end LocationScreen
